import Mathlib

/-!
# Verification of the MCP Koa server's session routing and lifecycle

Shallow embedding of the session-routing state machine of the
`typescript-koa-mcp-server-starter` repository: the `transports` registry
(a map from session id to `StreamableHTTPServerTransport`), the POST/GET/DELETE
`/mcp` route handlers, the transport `onclose` cleanup callback, and the
`gracefulShutdown` drain loop.

The embedding follows the most complete revision of the router
(the second revision in `src/unnamed/part_000`, which agrees with
`src/unnamed/part_001` on everything modelled here): the POST handler's
`if / else if` chain with its four reachable cases, the direct registry
insertion performed in the "provided session id misses the registry" case,
and the shutdown loop whose `delete` is skipped when `close()` throws.

JavaScript truthiness of the `mcp-session-id` header value (both `undefined`
and the empty string are falsy) is captured once by `headerToken`.

The external protocol engine (the `@modelcontextprotocol/sdk` library) is out
of scope for the repository; its contract, as the spec's §6 defines it, is
modelled where the router depends on it: while `transport.handleRequest`
processes an initialize message, the engine calls the configured
`sessionIdGenerator`, assigns the result to `transport.sessionId`, and fires
the `onsessioninitialized` callback with it.
-/

/-- A `StreamableHTTPServerTransport` as the router observes it:
`tid` is the object identity (which construction produced it), `genId` is the
value the configured `sessionIdGenerator` returns (a fresh UUID for an
initialization request, the client-supplied token verbatim in the
unknown-token case), and `sessionId` is the engine-assigned session id,
absent until the engine initializes the session. -/
structure Transport where
  tid : Nat
  genId : String
  sessionId : Option String
deriving DecidableEq, Repr

/-- The `transports` object: an association map from session id to transport.
Earlier entries shadow later ones; `Registry.put` removes the old binding so
keys stay unique, matching JavaScript object assignment. -/
abbrev Registry := List (String × Transport)

/-- `transports[sessionId]`: first binding of the key, if any. -/
def Registry.get : Registry → String → Option Transport
  | [], _ => none
  | (k, t) :: rest, s => if k = s then some t else Registry.get rest s

/-- `delete transports[sessionId]`: drop every binding of the key. -/
def Registry.remove : Registry → String → Registry
  | [], _ => []
  | (k, t) :: rest, s =>
      if k = s then Registry.remove rest s else (k, t) :: Registry.remove rest s

/-- `transports[sessionId] = transport`: bind the key, overwriting any
previous binding. -/
def Registry.put (reg : Registry) (k : String) (t : Transport) : Registry :=
  (k, t) :: Registry.remove reg k

/-- The keys currently bound in the registry. -/
def keysOf (reg : Registry) : List String :=
  reg.map (fun e => e.1)

/-- JavaScript truthiness of the `mcp-session-id` header value: `undefined`
and the empty string are both falsy, so the router treats an empty header
exactly like an absent one. -/
def headerToken : Option String → Option String
  | none => none
  | some s => if s = "" then none else some s

/-- The JSON-RPC error body the POST handler writes:
`{ jsonrpc: "2.0", error: { code, message }, id: null }`. -/
structure RpcErrorBody where
  jsonrpc : String
  code : Int
  message : String
  idNull : Bool
deriving DecidableEq, Repr

/-- What the route handler sends back: a JSON-RPC error object, a plain-text
body, or delegation to `transport.handleRequest` on the transport with
identity `tid` (with the `mcp-session-id` response header, when the handler
sets one). -/
inductive Response where
  | jsonRpcError (status : Nat) (body : RpcErrorBody)
  | plainText (status : Nat) (body : String)
  | delegated (tid : Nat) (sessionHeader : Option String)
deriving DecidableEq, Repr

/-- Observable events of one POST handler execution, in program order.
`putCallback` is a registry insertion performed by the transport's
`onsessioninitialized` callback (which fires while `handleRequest` runs; it
is listed just before the `handle` event that hosts it); `putDirect` is the
insertion the request handler performs itself on the registry. -/
inductive Ev where
  | construct (tid : Nat) (genId : String)
  | connect (tid : Nat)
  | putDirect (k : String) (tid : Nat)
  | putCallback (k : String) (tid : Nat)
  | handle (tid : Nat)
deriving DecidableEq, Repr

/-- A POST `/mcp` request as the router inspects it: the raw
`mcp-session-id` header and whether `isInitializeRequest(ctx.request.body)`
holds. -/
structure PostRequest where
  sessionToken : Option String
  isInit : Bool
deriving DecidableEq, Repr

/-- Result of one POST handler execution: the response, the registry after
the handler (and the engine callbacks it triggers) ran, and the event
trace. -/
structure PostResult where
  response : Response
  registry : Registry
  trace : List Ev
deriving DecidableEq, Repr

/-- Result of one GET or DELETE handler execution. -/
structure StreamResult where
  response : Response
  registry : Registry
deriving DecidableEq, Repr

/-- The body of the 400 response for a request with no usable session. -/
def badSessionBody : RpcErrorBody :=
  { jsonrpc := "2.0", code := -32000
    message := "Bad Request: No valid session ID provided", idNull := true }

/-- The `transport.onclose` handler installed on every constructed transport:
`const sid = transport.sessionId; if (sid && transports[sid]) delete transports[sid];`. -/
def onclose (t : Transport) (reg : Registry) : Registry :=
  match t.sessionId with
  | none => reg
  | some sid =>
      if sid = "" then reg
      else
        match Registry.get reg sid with
        | some _ => Registry.remove reg sid
        | none => reg

/-- The POST `/mcp` handler's `if / else if` chain, in source order.
`freshUuid` is the value `randomUUID()` produces if the generator is called;
`nextTid` is the identity a newly constructed transport would get.

Case 1 (`sessionId && transports[sessionId]`): reuse the stored transport and
delegate.  Case 2 (`!sessionId && isInitializeRequest(body)`): construct a
transport with a generated id; the engine initializes it during
`handleRequest` (assigning `sessionId` and firing the callback insertion),
then the handler echoes `transport.sessionId` in the `mcp-session-id`
response header.  Case 3 (`sessionId && !transports[sessionId]`): construct a
transport whose generator returns the client token, connect, store it
directly under that token, then delegate; the engine initializes it during
the delegated `handleRequest` only when the body is an initialize message.
Case 4 (`!sessionId && !isInitializeRequest(body)`): reject with the 400
JSON-RPC body. -/
def postMcp (freshUuid : String) (nextTid : Nat) (req : PostRequest) (reg : Registry) :
    PostResult :=
  match headerToken req.sessionToken with
  | some sid =>
      match Registry.get reg sid with
      | some t =>
          { response := Response.delegated t.tid none
            registry := reg
            trace := [Ev.handle t.tid] }
      | none =>
          if req.isInit then
            { response := Response.delegated nextTid none
              registry :=
                Registry.put (Registry.put reg sid ⟨nextTid, sid, none⟩) sid
                  ⟨nextTid, sid, some sid⟩
              trace := [Ev.construct nextTid sid, Ev.connect nextTid,
                        Ev.putDirect sid nextTid, Ev.putCallback sid nextTid,
                        Ev.handle nextTid] }
          else
            { response := Response.delegated nextTid none
              registry := Registry.put reg sid ⟨nextTid, sid, none⟩
              trace := [Ev.construct nextTid sid, Ev.connect nextTid,
                        Ev.putDirect sid nextTid, Ev.handle nextTid] }
  | none =>
      if req.isInit then
        { response := Response.delegated nextTid (some freshUuid)
          registry := Registry.put reg freshUuid ⟨nextTid, freshUuid, some freshUuid⟩
          trace := [Ev.construct nextTid freshUuid, Ev.connect nextTid,
                    Ev.putCallback freshUuid nextTid, Ev.handle nextTid] }
      else
        { response := Response.jsonRpcError 400 badSessionBody
          registry := reg
          trace := [] }

/-- The GET `/mcp` handler: reject with plain-text 400 unless the token is
truthy and hits the registry, otherwise delegate to the stored transport.
`closesDuringHandle` is an oracle for whether the delegated library call
tears the transport down (running its `onclose` handler) before returning. -/
def getMcp (closesDuringHandle : Bool) (token : Option String) (reg : Registry) :
    StreamResult :=
  match headerToken token with
  | none => { response := Response.plainText 400 "Invalid or missing session ID"
              registry := reg }
  | some sid =>
      match Registry.get reg sid with
      | none => { response := Response.plainText 400 "Invalid or missing session ID"
                  registry := reg }
      | some t =>
          { response := Response.delegated t.tid none
            registry := if closesDuringHandle then onclose t reg else reg }

/-- The DELETE `/mcp` handler: the same guard as GET, then delegation of the
protocol-level teardown to the stored transport. -/
def deleteMcp (closesDuringHandle : Bool) (token : Option String) (reg : Registry) :
    StreamResult :=
  match headerToken token with
  | none => { response := Response.plainText 400 "Invalid or missing session ID"
              registry := reg }
  | some sid =>
      match Registry.get reg sid with
      | none => { response := Response.plainText 400 "Invalid or missing session ID"
                  registry := reg }
      | some t =>
          { response := Response.delegated t.tid none
            registry := if closesDuringHandle then onclose t reg else reg }

/-- One iteration of the `gracefulShutdown` loop body for key `sid`:
`try { await transports[sid].close(); delete transports[sid]; } catch { log }`.
`closeOk sid` tells whether `close()` succeeds; when it throws, the `catch`
only logs, so the `delete` that follows the `await` is skipped and the
binding survives.  Reading a key that has already disappeared throws on the
`.close()` call and is likewise caught, leaving the registry unchanged. -/
def shutdownStep (closeOk : String → Bool) (reg : Registry) (sid : String) : Registry :=
  match Registry.get reg sid with
  | none => reg
  | some _ => if closeOk sid then Registry.remove reg sid else reg

/-- The `for (const sessionId in transports)` loop of `gracefulShutdown`,
iterating the listed keys over the evolving registry. -/
def shutdownLoop (closeOk : String → Bool) : List String → Registry → Registry
  | [], reg => reg
  | sid :: rest, reg => shutdownLoop closeOk rest (shutdownStep closeOk reg sid)

/-- The registry after `gracefulShutdown`'s per-session loop has run over
every key that was present when the signal arrived. -/
def gracefulShutdownRegistry (closeOk : String → Bool) (reg : Registry) : Registry :=
  shutdownLoop closeOk (keysOf reg) reg

/-- Key consistency: every registry binding maps a key to a transport whose
configured generator returns that key, and whose engine-assigned session id,
once present, is that key. -/
def KeyConsistent (reg : Registry) : Prop :=
  ∀ k t, Registry.get reg k = some t →
    t.genId = k ∧ ∀ s, t.sessionId = some s → s = k

/-- Sample transport used to instantiate the proved theorems. -/
def tA : Transport := { tid := 7, genId := "a", sessionId := some "a" }

/-- Sample one-session registry used to instantiate the proved theorems. -/
def regA : Registry := [("a", tA)]

theorem get_remove (reg : Registry) (k s : String) :
    Registry.get (Registry.remove reg k) s =
      if s = k then none else Registry.get reg s := by
  induction reg with
  | nil => by_cases h : s = k <;> simp [Registry.remove, Registry.get, h]
  | cons e rest ih =>
    obtain ⟨a, b⟩ := e
    by_cases hak : a = k
    · subst hak
      by_cases hsk : s = a
      · subst hsk; simp [Registry.remove, ih]
      · have has : ¬ a = s := fun h => hsk h.symm
        simp [Registry.remove, Registry.get, hsk, has, ih]
    · by_cases has : a = s
      · subst has
        simp [Registry.remove, Registry.get, hak]
      · simp [Registry.remove, Registry.get, hak, has, ih]

theorem get_put (reg : Registry) (k : String) (t : Transport) (s : String) :
    Registry.get (Registry.put reg k t) s =
      if s = k then some t else Registry.get reg s := by
  by_cases h : s = k
  · subst h; simp [Registry.put, Registry.get]
  · have hks : ¬ k = s := fun e => h e.symm
    simp [Registry.put, Registry.get, hks, get_remove, h]

theorem remove_of_absent (reg : Registry) (k : String)
    (h : Registry.get reg k = none) : Registry.remove reg k = reg := by
  induction reg with
  | nil => rfl
  | cons e rest ih =>
    obtain ⟨a, b⟩ := e
    by_cases hak : a = k
    · subst hak; simp [Registry.get] at h
    · simp [Registry.get, hak] at h
      simp [Registry.remove, hak, ih h]

theorem get_of_not_mem_keys (reg : Registry) (k : String)
    (h : k ∉ keysOf reg) : Registry.get reg k = none := by
  induction reg with
  | nil => rfl
  | cons e rest ih =>
    obtain ⟨a, b⟩ := e
    rw [show keysOf ((a, b) :: rest) = a :: keysOf rest from rfl, List.mem_cons] at h
    push_neg at h
    have hne : ¬ a = k := fun e => h.1 e.symm
    simp [Registry.get, hne, ih h.2]

theorem keyConsistent_put (reg : Registry) (k : String) (t : Transport)
    (h : KeyConsistent reg) (hg : t.genId = k)
    (hs : ∀ s, t.sessionId = some s → s = k) :
    KeyConsistent (Registry.put reg k t) := by
  intro k' t' h'
  rw [get_put] at h'
  by_cases e : k' = k
  · rw [if_pos e] at h'
    cases h'
    subst e
    exact ⟨hg, hs⟩
  · rw [if_neg e] at h'
    exact h k' t' h'

theorem keyConsistent_remove (reg : Registry) (k : String)
    (h : KeyConsistent reg) : KeyConsistent (Registry.remove reg k) := by
  intro k' t' h'
  rw [get_remove] at h'
  by_cases e : k' = k
  · rw [if_pos e] at h'; cases h'
  · rw [if_neg e] at h'
    exact h k' t' h'

theorem keyConsistent_onclose (t : Transport) (reg : Registry)
    (h : KeyConsistent reg) : KeyConsistent (onclose t reg) := by
  unfold onclose
  cases t.sessionId with
  | none => exact h
  | some sid =>
    by_cases hsid : sid = ""
    · simpa [hsid] using h
    · simp only [if_neg hsid]
      cases Registry.get reg sid with
      | none => exact h
      | some _ => exact keyConsistent_remove reg sid h

theorem keyConsistent_shutdownStep (closeOk : String → Bool) (reg : Registry)
    (sid : String) (h : KeyConsistent reg) :
    KeyConsistent (shutdownStep closeOk reg sid) := by
  unfold shutdownStep
  cases Registry.get reg sid with
  | none => exact h
  | some _ =>
    by_cases hc : closeOk sid = true
    · simpa [hc] using keyConsistent_remove reg sid h
    · simpa [hc] using h

theorem keyConsistent_shutdownLoop (closeOk : String → Bool) (keys : List String) :
    ∀ reg : Registry, KeyConsistent reg →
      KeyConsistent (shutdownLoop closeOk keys reg) := by
  induction keys with
  | nil => exact fun reg h => h
  | cons sid rest ih =>
    intro reg h
    exact ih _ (keyConsistent_shutdownStep closeOk reg sid h)

/-- C1: a POST to `/mcp` whose session token hits the registry is serviced by
the very transport already stored under that token — the handler delegates
straight to it, constructs no new transport, performs no registry mutation,
and leaves the registry unchanged. -/
theorem post_hit_reuses_stored_transport (u : String) (n : Nat) (req : PostRequest)
    (reg : Registry) (sid : String) (t : Transport)
    (htok : headerToken req.sessionToken = some sid)
    (hhit : Registry.get reg sid = some t) :
    postMcp u n req reg =
      { response := Response.delegated t.tid none, registry := reg
        trace := [Ev.handle t.tid] } := by
  simp [postMcp, htok, hhit]

theorem post_hit_reuses_stored_transport_witness :
    postMcp "u" 1 { sessionToken := some "a", isInit := false } regA =
      { response := Response.delegated tA.tid none, registry := regA
        trace := [Ev.handle tA.tid] } :=
  post_hit_reuses_stored_transport "u" 1 { sessionToken := some "a", isInit := false }
    regA "a" tA (by decide) (by decide)

/-- C2: a POST with no usable session token and a non-initialize body is
rejected with HTTP 400 and exactly the JSON-RPC body
`{jsonrpc:"2.0", error:{code:-32000, message:"Bad Request: No valid session
ID provided"}, id:null}`; no transport is constructed and the registry is
untouched, so no session is created. -/
theorem post_no_token_non_init_rejected (u : String) (n : Nat) (req : PostRequest)
    (reg : Registry)
    (htok : headerToken req.sessionToken = none) (hinit : req.isInit = false) :
    postMcp u n req reg =
      { response := Response.jsonRpcError 400
          { jsonrpc := "2.0", code := -32000
            message := "Bad Request: No valid session ID provided", idNull := true }
        registry := reg
        trace := [] } := by
  simp [postMcp, htok, hinit, badSessionBody]

theorem post_no_token_non_init_rejected_witness :
    postMcp "u" 1 { sessionToken := none, isInit := false } regA =
      { response := Response.jsonRpcError 400
          { jsonrpc := "2.0", code := -32000
            message := "Bad Request: No valid session ID provided", idNull := true }
        registry := regA
        trace := [] } :=
  post_no_token_non_init_rejected "u" 1 { sessionToken := none, isInit := false }
    regA rfl rfl

/-- C3: a POST bearing a session token that misses the registry constructs a
new transport whose configured session id is exactly the client-supplied
token (its generator returns the token verbatim, with no generated
substitute), and the handler inserts it into the registry under that token
immediately after connecting — the direct insertion precedes the delegated
handling of the request. -/
theorem post_unknown_token_adopts_client_id (u : String) (n : Nat) (req : PostRequest)
    (reg : Registry) (sid : String)
    (htok : headerToken req.sessionToken = some sid)
    (hmiss : Registry.get reg sid = none) :
    (∃ rest, (postMcp u n req reg).trace =
        Ev.construct n sid :: Ev.connect n :: Ev.putDirect sid n :: rest ∧
        Ev.handle n ∈ rest) ∧
    Registry.get (postMcp u n req reg).registry sid =
      some { tid := n, genId := sid
             sessionId := if req.isInit then some sid else none } := by
  cases hinit : req.isInit with
  | false =>
    refine ⟨⟨[Ev.handle n], ?_, ?_⟩, ?_⟩ <;> simp [postMcp, htok, hmiss, hinit, get_put]
  | true =>
    refine ⟨⟨[Ev.putCallback sid n, Ev.handle n], ?_, ?_⟩, ?_⟩ <;>
      simp [postMcp, htok, hmiss, hinit, get_put]

theorem post_unknown_token_adopts_client_id_witness :
    (∃ rest, (postMcp "u" 1 { sessionToken := some "b", isInit := false } regA).trace =
        Ev.construct 1 "b" :: Ev.connect 1 :: Ev.putDirect "b" 1 :: rest ∧
        Ev.handle 1 ∈ rest) ∧
    Registry.get (postMcp "u" 1 { sessionToken := some "b", isInit := false } regA).registry
        "b" =
      some { tid := 1, genId := "b"
             sessionId := if (false : Bool) then some "b" else none } :=
  post_unknown_token_adopts_client_id "u" 1 { sessionToken := some "b", isInit := false }
    regA "b" (by decide) (by decide)

/-- C4: a POST initialization request (no usable token, initialize body)
issues the generated session id: the response carries it in the
`mcp-session-id` header, the registry afterwards stores the new transport
under it, and a subsequent POST bearing that id is routed by case 1 — it is
serviced by the same stored transport, with no new transport constructed and
no new id issued. -/
theorem post_init_issues_id_then_hits (u u2 : String) (n n2 : Nat)
    (req req2 : PostRequest) (reg : Registry)
    (htok : headerToken req.sessionToken = none) (hinit : req.isInit = true)
    (htok2 : headerToken req2.sessionToken = some u) :
    (postMcp u n req reg).response = Response.delegated n (some u) ∧
    Registry.get (postMcp u n req reg).registry u =
      some { tid := n, genId := u, sessionId := some u } ∧
    postMcp u2 n2 req2 (postMcp u n req reg).registry =
      { response := Response.delegated n none
        registry := (postMcp u n req reg).registry
        trace := [Ev.handle n] } := by
  have hreg : Registry.get (postMcp u n req reg).registry u =
      some { tid := n, genId := u, sessionId := some u } := by
    simp [postMcp, htok, hinit, get_put]
  refine ⟨by simp [postMcp, htok, hinit], hreg, ?_⟩
  generalize hR : (postMcp u n req reg).registry = R at hreg ⊢
  simp [postMcp, htok2, hreg]

theorem post_init_issues_id_then_hits_witness :
    (postMcp "fresh" 1 { sessionToken := none, isInit := true } regA).response =
      Response.delegated 1 (some "fresh") ∧
    Registry.get (postMcp "fresh" 1 { sessionToken := none, isInit := true } regA).registry
        "fresh" =
      some { tid := 1, genId := "fresh", sessionId := some "fresh" } ∧
    postMcp "x" 2 { sessionToken := some "fresh", isInit := false }
        (postMcp "fresh" 1 { sessionToken := none, isInit := true } regA).registry =
      { response := Response.delegated 1 none
        registry := (postMcp "fresh" 1 { sessionToken := none, isInit := true } regA).registry
        trace := [Ev.handle 1] } :=
  post_init_issues_id_then_hits "fresh" "x" 1 2
    { sessionToken := none, isInit := true } { sessionToken := some "fresh", isInit := false }
    regA rfl rfl (by decide)

/-- C5 counterexample: a POST carrying the unknown token "s1" with an
initialize body makes the handler insert into the registry directly
(`transports[sessionId] = transport` after `connect`), and the
initialization callback later inserts the same key again — refuting
"executed exactly once, and only from the initialization callback, never
directly from the request handler". -/
theorem put_direct_from_handler_counterexample :
    Ev.putDirect "s1" 0 ∈
        (postMcp "u1" 0 { sessionToken := some "s1", isInit := true } []).trace ∧
    Ev.putCallback "s1" 0 ∈
        (postMcp "u1" 0 { sessionToken := some "s1", isInit := true } []).trace := by
  decide

/-- C5 amended: registry insertion happens only from the initialization
callback except in case 3, where the request handler inserts directly: any
direct insertion in a POST execution occurs only when the request carries a
token that misses the registry, its key is exactly that client token, the
inserted transport is the one this request constructed, and the registry
afterwards stores that transport under the token (so a case-3 initialize
request inserts the same binding twice, once directly and once from the
callback). -/
theorem put_direct_only_in_case3 (u : String) (n : Nat) (req : PostRequest)
    (reg : Registry) (k : String) (m : Nat)
    (h : Ev.putDirect k m ∈ (postMcp u n req reg).trace) :
    headerToken req.sessionToken = some k ∧ Registry.get reg k = none ∧ m = n ∧
    Registry.get (postMcp u n req reg).registry k =
      some { tid := n, genId := k
             sessionId := if req.isInit then some k else none } := by
  cases htok : headerToken req.sessionToken with
  | none =>
    cases hinit : req.isInit <;> simp [postMcp, htok, hinit] at h
  | some sid =>
    cases hhit : Registry.get reg sid with
    | some t => simp [postMcp, htok, hhit] at h
    | none =>
      cases hinit : req.isInit with
      | false =>
        simp [postMcp, htok, hhit, hinit] at h
        obtain ⟨hk, hm⟩ := h
        subst hk; subst hm
        exact ⟨rfl, hhit, rfl, by simp [postMcp, htok, hhit, hinit, get_put]⟩
      | true =>
        simp [postMcp, htok, hhit, hinit] at h
        obtain ⟨hk, hm⟩ := h
        subst hk; subst hm
        exact ⟨rfl, hhit, rfl, by simp [postMcp, htok, hhit, hinit, get_put]⟩

theorem put_direct_only_in_case3_witness :
    headerToken (some "b") = some "b" ∧ Registry.get regA "b" = none ∧ 1 = 1 ∧
    Registry.get (postMcp "u" 1 { sessionToken := some "b", isInit := true } regA).registry
        "b" =
      some { tid := 1, genId := "b"
             sessionId := if (true : Bool) then some "b" else none } :=
  put_direct_only_in_case3 "u" 1 { sessionToken := some "b", isInit := true } regA "b" 1
    (by decide)

/-- C6 counterexample: starting from one open session whose `close()` raises,
the shutdown loop's `catch` only logs, the `delete` that follows the failed
`await` is skipped, and the registry still holds that session after the loop
— refuting "the Registry is empty ... even when close() fails (raises) for
some of the sessions". -/
theorem shutdown_close_failure_keeps_entry_counterexample :
    gracefulShutdownRegistry (fun _ => false) regA ≠ [] := by decide

theorem shutdownLoop_cons_of_not_mem (closeOk : String → Bool) (keys : List String)
    (k : String) (t : Transport) (reg : Registry) (hk : k ∉ keys) :
    shutdownLoop closeOk keys ((k, t) :: reg) =
      (k, t) :: shutdownLoop closeOk keys reg := by
  induction keys generalizing reg with
  | nil => rfl
  | cons sid rest ih =>
    have hne : ¬ k = sid := fun e => hk (by simp [e])
    have hrest : k ∉ rest := fun m => hk (List.mem_cons_of_mem _ m)
    have hget : Registry.get ((k, t) :: reg) sid = Registry.get reg sid := by
      simp [Registry.get, hne]
    have hstep : shutdownStep closeOk ((k, t) :: reg) sid =
        (k, t) :: shutdownStep closeOk reg sid := by
      unfold shutdownStep
      rw [hget]
      cases hg : Registry.get reg sid with
      | none => rfl
      | some tt =>
        by_cases hc : closeOk sid = true
        · simp [hc, Registry.remove, hne]
        · simp [hc]
    calc shutdownLoop closeOk (sid :: rest) ((k, t) :: reg)
        = shutdownLoop closeOk rest (shutdownStep closeOk ((k, t) :: reg) sid) := rfl
      _ = shutdownLoop closeOk rest ((k, t) :: shutdownStep closeOk reg sid) := by
            rw [hstep]
      _ = (k, t) :: shutdownLoop closeOk rest (shutdownStep closeOk reg sid) :=
            ih _ hrest
      _ = (k, t) :: shutdownLoop closeOk (sid :: rest) reg := rfl

/-- C6 amended: after the shutdown loop runs over a registry with distinct
keys, the registry holds exactly the sessions whose `close()` raised — it
equals the original registry filtered to the entries whose close failed.  In
particular every session whose close succeeded is removed, a close failure
for one session does not prevent the other sessions from being closed and
removed, and when every close succeeds the registry is left empty; but a
session whose close raises survives the loop. -/
theorem shutdown_keeps_exactly_failed_closes (closeOk : String → Bool) (reg : Registry)
    (hnd : (keysOf reg).Nodup) :
    gracefulShutdownRegistry closeOk reg = reg.filter (fun e => !closeOk e.1) := by
  unfold gracefulShutdownRegistry
  induction reg with
  | nil => rfl
  | cons e rest ih =>
    obtain ⟨k, t⟩ := e
    rw [show keysOf ((k, t) :: rest) = k :: keysOf rest from rfl] at hnd ⊢
    have hk : k ∉ keysOf rest := (List.nodup_cons.mp hnd).1
    have hrest : (keysOf rest).Nodup := (List.nodup_cons.mp hnd).2
    have hget : Registry.get ((k, t) :: rest) k = some t := by
      simp [Registry.get]
    have hstep0 : shutdownStep closeOk ((k, t) :: rest) k =
        if closeOk k then Registry.remove ((k, t) :: rest) k else (k, t) :: rest := by
      unfold shutdownStep
      rw [hget]
    by_cases hc : closeOk k = true
    · have hrem : Registry.remove ((k, t) :: rest) k = rest := by
        simp [Registry.remove,
          remove_of_absent rest k (get_of_not_mem_keys rest k hk)]
      calc shutdownLoop closeOk (k :: keysOf rest) ((k, t) :: rest)
          = shutdownLoop closeOk (keysOf rest) rest := by
            simp [shutdownLoop, hstep0, hc, hrem]
        _ = rest.filter (fun e => !closeOk e.1) := ih hrest
        _ = ((k, t) :: rest).filter (fun e => !closeOk e.1) := by
            simp [List.filter, hc]
    · calc shutdownLoop closeOk (k :: keysOf rest) ((k, t) :: rest)
          = shutdownLoop closeOk (keysOf rest) ((k, t) :: rest) := by
            simp [shutdownLoop, hstep0, hc]
        _ = (k, t) :: shutdownLoop closeOk (keysOf rest) rest :=
            shutdownLoop_cons_of_not_mem closeOk (keysOf rest) k t rest hk
        _ = (k, t) :: rest.filter (fun e => !closeOk e.1) := by rw [ih hrest]
        _ = ((k, t) :: rest).filter (fun e => !closeOk e.1) := by
            simp [List.filter, hc]

theorem shutdown_keeps_exactly_failed_closes_witness :
    gracefulShutdownRegistry (fun s => s = "a") [("a", tA), ("b", tA)] =
      [("a", tA), ("b", tA)].filter (fun e => !(fun s : String => decide (s = "a")) e.1) :=
  shutdown_keeps_exactly_failed_closes (fun s => s = "a") [("a", tA), ("b", tA)]
    (by decide)

/-- C7: the close/removal path is idempotent: running a transport's `onclose`
handler a second time (after any first run) changes nothing further, and
removing an id that is absent from the registry leaves the registry
unchanged; the handler guards the delete behind a presence check, so no
invocation can fail. -/
theorem onclose_idempotent_remove_absent_noop (t : Transport) (reg : Registry) :
    onclose t (onclose t reg) = onclose t reg ∧
    (∀ k, Registry.get reg k = none → Registry.remove reg k = reg) := by
  constructor
  · cases hs : t.sessionId with
    | none => simp [onclose, hs]
    | some sid =>
      by_cases he : sid = ""
      · simp [onclose, hs, he]
      · cases hg : Registry.get reg sid with
        | none => simp [onclose, hs, he, hg]
        | some tt =>
          have h2 : Registry.get (Registry.remove reg sid) sid = none := by
            simp [get_remove]
          simp [onclose, hs, he, hg, h2]
  · exact fun k h => remove_of_absent reg k h

theorem onclose_idempotent_remove_absent_noop_witness :
    onclose tA (onclose tA regA) = onclose tA regA ∧
    Registry.remove regA "zz" = regA :=
  ⟨(onclose_idempotent_remove_absent_noop tA regA).1,
   (onclose_idempotent_remove_absent_noop tA regA).2 "zz" (by decide)⟩

/-- C8: a GET or DELETE to `/mcp` whose session token is absent (or falsy) or
misses the registry is answered with HTTP 400 and the plain-text body
"Invalid or missing session ID", delegating to no transport and leaving the
registry untouched; when the token hits, the request is delegated to the
stored session's transport. -/
theorem get_delete_session_guard (closes : Bool) (tok : Option String)
    (reg : Registry) :
    ((∀ sid, headerToken tok = some sid → Registry.get reg sid = none) →
      getMcp closes tok reg =
        { response := Response.plainText 400 "Invalid or missing session ID"
          registry := reg } ∧
      deleteMcp closes tok reg =
        { response := Response.plainText 400 "Invalid or missing session ID"
          registry := reg }) ∧
    (∀ sid t, headerToken tok = some sid → Registry.get reg sid = some t →
      (getMcp closes tok reg).response = Response.delegated t.tid none ∧
      (deleteMcp closes tok reg).response = Response.delegated t.tid none) := by
  constructor
  · intro h
    cases htok : headerToken tok with
    | none => simp [getMcp, deleteMcp, htok]
    | some sid =>
      have hmiss := h sid htok
      simp [getMcp, deleteMcp, htok, hmiss]
  · intro sid t htok hhit
    simp [getMcp, deleteMcp, htok, hhit]

theorem get_delete_session_guard_witness :
    (getMcp false (some "zz") regA =
        { response := Response.plainText 400 "Invalid or missing session ID"
          registry := regA } ∧
      deleteMcp false (some "zz") regA =
        { response := Response.plainText 400 "Invalid or missing session ID"
          registry := regA }) ∧
    ((getMcp false (some "a") regA).response = Response.delegated tA.tid none ∧
      (deleteMcp false (some "a") regA).response = Response.delegated tA.tid none) :=
  ⟨(get_delete_session_guard false (some "zz") regA).1
      (by intro sid h; simp [headerToken] at h; subst h; decide),
   (get_delete_session_guard false (some "a") regA).2 "a" tA (by decide) (by decide)⟩

/-- C9: registry key consistency is an invariant of every reachable
operation: if every key is bound to a transport whose configured generator
returns that key and whose assigned session id, once present, equals it,
then the same holds immediately after the case-3 direct insertion of a
not-yet-initialized transport, after a POST execution, after GET and DELETE
executions (whatever the delegated call closes), after the `onclose`
cleanup, and after the shutdown drain. -/
theorem registry_keys_consistent (u : String) (n : Nat) (req : PostRequest)
    (closes : Bool) (tok : Option String) (t : Transport)
    (closeOk : String → Bool) (sid : String) (m : Nat) (reg : Registry)
    (h : KeyConsistent reg) :
    KeyConsistent (Registry.put reg sid { tid := m, genId := sid, sessionId := none }) ∧
    KeyConsistent (postMcp u n req reg).registry ∧
    KeyConsistent (getMcp closes tok reg).registry ∧
    KeyConsistent (deleteMcp closes tok reg).registry ∧
    KeyConsistent (onclose t reg) ∧
    KeyConsistent (gracefulShutdownRegistry closeOk reg) := by
  have hstream : ∀ t' : Transport,
      KeyConsistent (if closes then onclose t' reg else reg) := by
    intro t'
    cases closes with
    | false => simpa using h
    | true => simpa using keyConsistent_onclose t' reg h
  refine ⟨keyConsistent_put reg sid _ h rfl (fun s hs => by cases hs), ?_, ?_, ?_,
    keyConsistent_onclose t reg h, keyConsistent_shutdownLoop closeOk (keysOf reg) reg h⟩
  · cases htok : headerToken req.sessionToken with
    | none =>
      cases hinit : req.isInit with
      | true =>
        simp only [postMcp, htok, hinit, if_true]
        exact keyConsistent_put reg u _ h rfl
          (fun s hs => (Option.some.inj hs).symm)
      | false => simpa [postMcp, htok, hinit] using h
    | some s0 =>
      cases hhit : Registry.get reg s0 with
      | some tt => simpa [postMcp, htok, hhit] using h
      | none =>
        cases hinit : req.isInit with
        | true =>
          simp only [postMcp, htok, hhit, hinit, if_true]
          exact keyConsistent_put _ s0 _
            (keyConsistent_put reg s0 _ h rfl (fun s hs => by cases hs)) rfl
            (fun s hs => (Option.some.inj hs).symm)
        | false =>
          simp only [postMcp, htok, hhit, hinit, if_false]
          exact keyConsistent_put reg s0 _ h rfl (fun s hs => by cases hs)
  · cases htok : headerToken tok with
    | none => simpa [getMcp, htok] using h
    | some s0 =>
      cases hhit : Registry.get reg s0 with
      | none => simpa [getMcp, htok, hhit] using h
      | some tt => simpa [getMcp, htok, hhit] using hstream tt
  · cases htok : headerToken tok with
    | none => simpa [deleteMcp, htok] using h
    | some s0 =>
      cases hhit : Registry.get reg s0 with
      | none => simpa [deleteMcp, htok, hhit] using h
      | some tt => simpa [deleteMcp, htok, hhit] using hstream tt

theorem registry_keys_consistent_witness :
    KeyConsistent (Registry.put [] "w" { tid := 3, genId := "w", sessionId := none }) ∧
    KeyConsistent (postMcp "u" 1 { sessionToken := some "b", isInit := true } []).registry ∧
    KeyConsistent (getMcp true (some "b") []).registry ∧
    KeyConsistent (deleteMcp true (some "b") []).registry ∧
    KeyConsistent (onclose tA []) ∧
    KeyConsistent (gracefulShutdownRegistry (fun _ => true) []) :=
  registry_keys_consistent "u" 1 { sessionToken := some "b", isInit := true }
    true (some "b") tA (fun _ => true) "w" 3 []
    (fun k t h => by simp [Registry.get] at h)

/-- C10: the GET and DELETE handlers never insert into the registry: every
key bound after the handler's own code (and any delegated close effect) has
run was already bound before the request — the key set can only shrink. -/
theorem get_delete_never_insert (closes : Bool) (tok : Option String)
    (reg : Registry) (k : String) :
    ((Registry.get (getMcp closes tok reg).registry k).isSome = true →
      (Registry.get reg k).isSome = true) ∧
    ((Registry.get (deleteMcp closes tok reg).registry k).isSome = true →
      (Registry.get reg k).isSome = true) := by
  have honc : ∀ t : Transport,
      (Registry.get (onclose t reg) k).isSome = true →
      (Registry.get reg k).isSome = true := by
    intro t
    cases hs : t.sessionId with
    | none => simp [onclose, hs]
    | some sid =>
      by_cases he : sid = ""
      · simp [onclose, hs, he]
      · cases hg : Registry.get reg sid with
        | none => simp [onclose, hs, he, hg]
        | some tt =>
          simp only [onclose, hs, if_neg he, hg]
          rw [get_remove]
          by_cases hk : k = sid
          · simp [hk]
          · simp [hk]
  constructor <;>
  · cases htok : headerToken tok with
    | none => simp [getMcp, deleteMcp, htok]
    | some sid =>
      cases hhit : Registry.get reg sid with
      | none => simp [getMcp, deleteMcp, htok, hhit]
      | some t =>
        cases closes with
        | false => simp [getMcp, deleteMcp, htok, hhit]
        | true => simpa [getMcp, deleteMcp, htok, hhit] using honc t

theorem get_delete_never_insert_witness :
    (Registry.get regA "a").isSome = true ∧ (Registry.get regA "a").isSome = true :=
  ⟨(get_delete_never_insert false (some "a") regA "a").1 (by decide),
   (get_delete_never_insert false (some "a") regA "a").2 (by decide)⟩
